import Mathlib

/-!
Shallow embedding of the ticket-support core: the `TicketEntity` aggregate
(`src/core/tickets/entities.py`), its domain errors
(`src/core/shared/exceptions.py`), the domain-event constructors
(`src/core/shared/events.py`, `src/core/tickets/events.py`) and the
unit-of-work transactional event-publication protocol
(`src/core/shared/interfaces.py`, `src/adapters/django_app/shared/unit_of_work.py`).

Modelling conventions:
- Python `datetime` values are integers (a tick count); `timedelta(hours=h)`
  is `h * 3600` ticks. Every mutating operation receives the value that
  `datetime.now()` would return as an explicit `now` argument.
- Python exceptions are `Except` values: `.error` means the operation raised
  and the caller's aggregate is unchanged.
- Python `str.strip()` / `str.lower()` are modelled on the underlying list of
  code points: `strip` drops the characters Python treats as whitespace from
  both ends, `lower` maps basic-latin upper-case letters to lower case
  (the same range Lean's `Char.toLower` handles).
-/

namespace Tickets

/-- Whitespace set of Python `str.strip()` (space, tab, LF, CR, VT, FF). -/
def pyIsSpace (c : Char) : Bool :=
  c.toNat = 32 || c.toNat = 9 || c.toNat = 10 || c.toNat = 13 ||
  c.toNat = 11 || c.toNat = 12

/-- Python `str.strip()` on the code-point list: drop leading whitespace, then
trailing whitespace. -/
def pyStripChars (l : List Char) : List Char :=
  (l.dropWhile pyIsSpace).rdropWhile pyIsSpace

/-- Python `str.strip()`. -/
def pstrip (s : String) : String := ⟨pyStripChars s.data⟩

/-- Python `str.lower()` (basic-latin range, matching `Char.toLower`). -/
def plower (s : String) : String := ⟨s.data.map Char.toLower⟩

/-- Python `len` on a string: number of code points. -/
def slen (s : String) : Nat := s.data.length

/-- `TicketStatus` enum (`entities.py`). -/
inductive TicketStatus
  | ABERTO
  | EM_PROGRESSO
  | AGUARDANDO_CLIENTE
  | RESOLVIDO
  | FECHADO
deriving DecidableEq, Repr, Fintype

/-- The `.value` string of each `TicketStatus` member. -/
def TicketStatus.value : TicketStatus → String
  | .ABERTO => "Aberto"
  | .EM_PROGRESSO => "Em Progresso"
  | .AGUARDANDO_CLIENTE => "Aguardando Cliente"
  | .RESOLVIDO => "Resolvido"
  | .FECHADO => "Fechado"

/-- `TicketPriority` enum (`entities.py`). -/
inductive TicketPriority
  | BAIXA
  | MEDIA
  | ALTA
  | CRITICA
deriving DecidableEq, Repr, Fintype

/-- `TicketPriority.sla_horas` property. -/
def TicketPriority.sla_horas : TicketPriority → Nat
  | .CRITICA => 4
  | .ALTA => 24
  | .MEDIA => 72
  | .BAIXA => 168

/-- Domain errors raised by the aggregate: `ValidationError(message, field)`
and `BusinessRuleViolationError(message, rule)` from
`src/core/shared/exceptions.py`. -/
inductive DomainErr
  | validation (message : String) (field : Option String)
  | businessRule (message : String) (rule : Option String)
deriving DecidableEq, Repr

/-- `TicketEntity` dataclass fields (`entities.py`). -/
structure TicketEntity where
  id : String
  titulo : String
  descricao : String
  categoria : String
  status : TicketStatus
  prioridade : TicketPriority
  criador_id : String
  atribuido_a_id : Option String
  criado_em : Int
  atualizado_em : Int
  sla_prazo : Option Int
  tags : List String
deriving DecidableEq, Repr

def TITULO_MIN_LENGTH : Nat := 3
def TITULO_MAX_LENGTH : Nat := 200
def DESCRICAO_MIN_LENGTH : Nat := 10
def DESCRICAO_MAX_LENGTH : Nat := 5000

/-- `TicketEntity._validar_titulo`. -/
def validar_titulo (titulo : String) : Except DomainErr Unit :=
  if titulo = "" then
    .error (.validation "Título é obrigatório" (some "titulo"))
  else
    let titulo_limpo := pstrip titulo
    if slen titulo_limpo < TITULO_MIN_LENGTH then
      .error (.validation
        ("Título deve ter pelo menos " ++ toString TITULO_MIN_LENGTH ++ " caracteres")
        (some "titulo"))
    else if slen titulo_limpo > TITULO_MAX_LENGTH then
      .error (.validation
        ("Título deve ter no máximo " ++ toString TITULO_MAX_LENGTH ++ " caracteres")
        (some "titulo"))
    else .ok ()

/-- `TicketEntity._validar_descricao`. -/
def validar_descricao (descricao : String) : Except DomainErr Unit :=
  if descricao = "" then
    .error (.validation "Descrição é obrigatória" (some "descricao"))
  else
    let descricao_limpa := pstrip descricao
    if slen descricao_limpa < DESCRICAO_MIN_LENGTH then
      .error (.validation
        ("Descrição deve ter pelo menos " ++ toString DESCRICAO_MIN_LENGTH ++ " caracteres")
        (some "descricao"))
    else if slen descricao_limpa > DESCRICAO_MAX_LENGTH then
      .error (.validation
        ("Descrição deve ter no máximo " ++ toString DESCRICAO_MAX_LENGTH ++ " caracteres")
        (some "descricao"))
    else .ok ()

/-- `TicketEntity._validar_criador`. -/
def validar_criador (criador_id : String) : Except DomainErr Unit :=
  if criador_id = "" then
    .error (.validation "Criador é obrigatório" (some "criador_id"))
  else .ok ()

/-- `timedelta(hours=h)` in ticks. -/
def hoursDelta (h : Nat) : Int := (h : Int) * 3600

/-- `TicketEntity._calcular_sla`: `sla_prazo = criado_em + timedelta(hours=prioridade.sla_horas)`. -/
def TicketEntity.calcular_sla (t : TicketEntity) : TicketEntity :=
  { t with sla_prazo := some (t.criado_em + hoursDelta t.prioridade.sla_horas) }

/-- `TicketEntity.criar` factory. `tags = none` models the Python default
`tags=None`; `tags or []` becomes `(tags.getD []).` The fresh uuid and the
`datetime.now()` results are the explicit `id` and `now` arguments. -/
def TicketEntity.criar (titulo descricao criador_id : String)
    (prioridade : TicketPriority) (categoria : String)
    (tags : Option (List String)) (id : String) (now : Int) :
    Except DomainErr TicketEntity :=
  match validar_titulo titulo with
  | .error e => .error e
  | .ok _ =>
    match validar_descricao descricao with
    | .error e => .error e
    | .ok _ =>
      match validar_criador criador_id with
      | .error e => .error e
      | .ok _ =>
        let ticket : TicketEntity :=
          { id := id
            titulo := pstrip titulo
            descricao := pstrip descricao
            categoria := if categoria = "" then "Geral" else pstrip categoria
            status := .ABERTO
            prioridade := prioridade
            criador_id := criador_id
            atribuido_a_id := none
            criado_em := now
            atualizado_em := now
            sla_prazo := none
            tags := tags.getD [] }
        .ok ticket.calcular_sla

/-- `TicketEntity.atribuir_a`. -/
def TicketEntity.atribuir_a (t : TicketEntity) (tecnico_id : String) (now : Int) :
    Except DomainErr TicketEntity :=
  if tecnico_id = "" then
    .error (.validation "ID do técnico é obrigatório" (some "tecnico_id"))
  else if t.status = .FECHADO then
    .error (.businessRule "Não é possível atribuir ticket fechado"
      (some "ticket_fechado_imutavel"))
  else
    .ok { t with atribuido_a_id := some tecnico_id,
                 status := .EM_PROGRESSO, atualizado_em := now }

/-- The `transicoes_validas` table of `TicketEntity.alterar_status`
(`dict.get` with default `[]` is total, exactly as this match). -/
def transicoes_validas : TicketStatus → List TicketStatus
  | .ABERTO => [.EM_PROGRESSO, .AGUARDANDO_CLIENTE]
  | .EM_PROGRESSO => [.AGUARDANDO_CLIENTE, .RESOLVIDO]
  | .AGUARDANDO_CLIENTE => [.EM_PROGRESSO, .RESOLVIDO]
  | .RESOLVIDO => [.FECHADO, .EM_PROGRESSO]
  | .FECHADO => [.ABERTO]

/-- `TicketEntity.alterar_status`. -/
def TicketEntity.alterar_status (t : TicketEntity) (novo_status : TicketStatus)
    (now : Int) : Except DomainErr TicketEntity :=
  if novo_status ∈ transicoes_validas t.status then
    .ok { t with status := novo_status, atualizado_em := now }
  else
    .error (.businessRule
      ("Transição de " ++ t.status.value ++ " para " ++ novo_status.value ++
        " não é permitida")
      (some "transicao_status_invalida"))

/-- Python truthiness of an `Optional[str]`: falsy iff `None` or `""`. -/
def optStrFalsy : Option String → Bool
  | none => true
  | some s => s = ""

/-- `TicketEntity.fechar`. The guard `if not self.atribuido_a_id:` tests
Python truthiness, so it fires on `None` and on an empty string alike. -/
def TicketEntity.fechar (t : TicketEntity) (now : Int) :
    Except DomainErr TicketEntity :=
  if optStrFalsy t.atribuido_a_id then
    .error (.businessRule "Ticket deve ser atribuído antes de ser fechado"
      (some "atribuicao_obrigatoria_para_fechar"))
  else if t.status = .FECHADO then
    .error (.businessRule "Ticket já está fechado" (some "ticket_ja_fechado"))
  else
    .ok { t with status := .FECHADO, atualizado_em := now }

/-- `TicketEntity.reabrir`. -/
def TicketEntity.reabrir (t : TicketEntity) (now : Int) :
    Except DomainErr TicketEntity :=
  if t.status ≠ .FECHADO then
    .error (.businessRule "Apenas tickets fechados podem ser reabertos"
      (some "apenas_fechado_pode_reabrir"))
  else
    .ok { t with status := .ABERTO, atribuido_a_id := none, atualizado_em := now }

/-- `TicketEntity.alterar_prioridade`. -/
def TicketEntity.alterar_prioridade (t : TicketEntity)
    (nova_prioridade : TicketPriority) (now : Int) : Except DomainErr TicketEntity :=
  if t.status = .FECHADO then
    .error (.businessRule "Não é possível alterar prioridade de ticket fechado"
      (some "ticket_fechado_imutavel"))
  else
    .ok (TicketEntity.calcular_sla
      { t with prioridade := nova_prioridade, atualizado_em := now })

/-- `tag.strip().lower()` as used by `adicionar_tag` / `remover_tag`. -/
def normTag (s : String) : String := plower (pstrip s)

/-- `TicketEntity.adicionar_tag` (never raises); `normTag tag` is the local
`tag_limpa = tag.strip().lower()`. -/
def TicketEntity.adicionar_tag (t : TicketEntity) (tag : String) (now : Int) :
    TicketEntity :=
  if normTag tag ≠ "" ∧ normTag tag ∉ t.tags then
    { t with tags := t.tags ++ [normTag tag], atualizado_em := now }
  else t

/-- `TicketEntity.remover_tag` (never raises); Python `list.remove` deletes
the first occurrence, i.e. `List.erase`. -/
def TicketEntity.remover_tag (t : TicketEntity) (tag : String) (now : Int) :
    TicketEntity :=
  if normTag tag ∈ t.tags then
    { t with tags := t.tags.erase (normTag tag), atualizado_em := now }
  else t

/-! Domain events (`src/core/shared/events.py`, `src/core/tickets/events.py`).

`DomainEvent.__post_init__` raises `ValueError` on an empty `aggregate_id`.
Every concrete ticket event overrides `__post_init__` with `pass`, so a
dataclass construction of a concrete event runs no validation at all; the
`make` functions below are those constructions. -/

/-- `DomainEvent.__post_init__` (base-class validation). -/
def DomainEvent.post_init (aggregate_id : String) : Except String Unit :=
  if aggregate_id = "" then .error "aggregate_id é obrigatório" else .ok ()

/-- `TicketCriadoEvent` dataclass fields. -/
structure TicketCriadoEvent where
  event_id : String
  aggregate_id : String
  occurred_at : Int
  version : Nat
  criador_id : String
  titulo : String
  prioridade : String
  categoria : String
deriving DecidableEq, Repr

/-- Constructing a `TicketCriadoEvent`: its `__post_init__` is `pass`. -/
def TicketCriadoEvent.make (event_id aggregate_id : String) (occurred_at : Int)
    (version : Nat) (criador_id titulo prioridade categoria : String) :
    Except String TicketCriadoEvent :=
  .ok { event_id, aggregate_id, occurred_at, version,
        criador_id, titulo, prioridade, categoria }

/-- `TicketAtribuidoEvent` dataclass fields. -/
structure TicketAtribuidoEvent where
  event_id : String
  aggregate_id : String
  occurred_at : Int
  version : Nat
  tecnico_id : String
  atribuido_por_id : Option String
deriving DecidableEq, Repr

/-- Constructing a `TicketAtribuidoEvent`: its `__post_init__` is `pass`. -/
def TicketAtribuidoEvent.make (event_id aggregate_id : String) (occurred_at : Int)
    (version : Nat) (tecnico_id : String) (atribuido_por_id : Option String) :
    Except String TicketAtribuidoEvent :=
  .ok { event_id, aggregate_id, occurred_at, version, tecnico_id, atribuido_por_id }

/-- `TicketFechadoEvent` dataclass fields (`tempo_resolucao_horas` kept
abstract as an optional tick count). -/
structure TicketFechadoEvent where
  event_id : String
  aggregate_id : String
  occurred_at : Int
  version : Nat
  fechado_por_id : String
  tempo_resolucao_horas : Option Int
  dentro_sla : Bool
deriving DecidableEq, Repr

/-- Constructing a `TicketFechadoEvent`: its `__post_init__` is `pass`. -/
def TicketFechadoEvent.make (event_id aggregate_id : String) (occurred_at : Int)
    (version : Nat) (fechado_por_id : String) (tempo_resolucao_horas : Option Int)
    (dentro_sla : Bool) : Except String TicketFechadoEvent :=
  .ok { event_id, aggregate_id, occurred_at, version,
        fechado_por_id, tempo_resolucao_horas, dentro_sla }

/-- `TicketReabertoEvent` dataclass fields. -/
structure TicketReabertoEvent where
  event_id : String
  aggregate_id : String
  occurred_at : Int
  version : Nat
  reaberto_por_id : String
  motivo : Option String
deriving DecidableEq, Repr

/-- Constructing a `TicketReabertoEvent`: its `__post_init__` is `pass`. -/
def TicketReabertoEvent.make (event_id aggregate_id : String) (occurred_at : Int)
    (version : Nat) (reaberto_por_id : String) (motivo : Option String) :
    Except String TicketReabertoEvent :=
  .ok { event_id, aggregate_id, occurred_at, version, reaberto_por_id, motivo }

/-- `TicketPrioridadeAlteradaEvent` dataclass fields. -/
structure TicketPrioridadeAlteradaEvent where
  event_id : String
  aggregate_id : String
  occurred_at : Int
  version : Nat
  prioridade_anterior : String
  prioridade_nova : String
  alterado_por_id : String
deriving DecidableEq, Repr

/-- Constructing a `TicketPrioridadeAlteradaEvent`: its `__post_init__` is `pass`. -/
def TicketPrioridadeAlteradaEvent.make (event_id aggregate_id : String)
    (occurred_at : Int) (version : Nat)
    (prioridade_anterior prioridade_nova alterado_por_id : String) :
    Except String TicketPrioridadeAlteradaEvent :=
  .ok { event_id, aggregate_id, occurred_at, version,
        prioridade_anterior, prioridade_nova, alterado_por_id }

/-! Unit of Work (`interfaces.py` base class + `DjangoUnitOfWork`).

The unit of work only ever reads `event.aggregate_id` from a buffered event,
so buffered events are modelled by `DEvt`: an identity tag plus the aggregate
id. Side effects on the collaborators are recorded as an ordered `Effect`
trace: event-store appends, the transaction commit/rollback, and the
individual `publish` calls (`ok := false` when the collaborator raised; the
exception is caught and logged by `_publish_events`). The event store is
modelled as never raising; `Effect.publishCall e ok` records that the call
was made and whether the collaborator succeeded. -/

/-- A buffered domain event, as seen by the unit of work. -/
structure DEvt where
  tag : Nat
  aggregate_id : String
deriving DecidableEq, Repr

/-- One observable side effect of a unit-of-work run. -/
inductive Effect
  | storeAppend (e : DEvt) (seq : Nat)
  | txCommit
  | txRollback
  | publishCall (e : DEvt) (ok : Bool)
deriving DecidableEq, Repr

/-- Collaborator wiring of a `DjangoUnitOfWork`: whether an event publisher /
event store were injected, and which events the publisher raises on. -/
structure UoWConfig where
  hasPublisher : Bool
  hasStore : Bool
  pubFails : DEvt → Bool

/-- Mutable state of a `DjangoUnitOfWork` instance: the inherited `_events`
buffer plus `_transaction_started`, `_committed`, `_rolled_back` and
`_sequence_counters` (a total map, absent keys reading 0). -/
structure UoWState where
  events : List DEvt
  transaction_started : Bool
  committed : Bool
  rolled_back : Bool
  seq_counters : String → Nat

/-- A freshly constructed `DjangoUnitOfWork`. -/
def UoWState.new : UoWState :=
  { events := [], transaction_started := false, committed := false,
    rolled_back := false, seq_counters := fun _ => 0 }

/-- `DjangoUnitOfWork._begin_transaction` (called by `__enter__`). -/
def UoWState.begin_transaction (s : UoWState) : UoWState :=
  if s.transaction_started then s else { s with transaction_started := true }

/-- `UnitOfWork.publish_event`: append to the `_events` buffer. -/
def UoWState.publish_event (s : UoWState) (e : DEvt) : UoWState :=
  { s with events := s.events ++ [e] }

/-- Enqueue a list of events in order. -/
def UoWState.enqueueAll (s : UoWState) (es : List DEvt) : UoWState :=
  es.foldl UoWState.publish_event s

/-- `DjangoUnitOfWork._get_next_sequence`. -/
def get_next_sequence (c : String → Nat) (aggregate_id : String) :
    Nat × (String → Nat) :=
  let n := c aggregate_id + 1
  (n, fun a => if a = aggregate_id then n else c a)

/-- `DjangoUnitOfWork._persist_events`: append each buffered event to the
event store with its per-aggregate sequence number. -/
def persist_events : List DEvt → (String → Nat) → List Effect × (String → Nat)
  | [], c => ([], c)
  | e :: es, c =>
    let p := get_next_sequence c e.aggregate_id
    let r := persist_events es p.2
    (Effect.storeAppend e p.1 :: r.1, r.2)

/-- `DjangoUnitOfWork._publish_events` loop body: one `publish` call per
buffered event when a publisher is configured; a raise inside `publish` is
caught and logged, and the loop continues. -/
def publish_events (cfg : UoWConfig) : List DEvt → List Effect
  | [] => []
  | e :: es =>
    (if cfg.hasPublisher then [Effect.publishCall e (!cfg.pubFails e)] else [])
      ++ publish_events cfg es

/-- `DjangoUnitOfWork.commit`. Steps: (1) persist buffered events to the
event store when one is configured and the buffer is non-empty; (2) commit
the transaction; (3) publish buffered events and clear the buffer; finally
restore autocommit (`_finalize`). Already-finalized commits are no-ops. -/
def UoWState.commit (cfg : UoWConfig) (s : UoWState) : UoWState × List Effect :=
  if s.committed || s.rolled_back then (s, [])
  else
    let step1 :=
      if cfg.hasStore && !s.events.isEmpty then persist_events s.events s.seq_counters
      else ([], s.seq_counters)
    let fx2 := if s.transaction_started then [Effect.txCommit] else []
    let s1 : UoWState := { s with committed := true, seq_counters := step1.2 }
    let step3 :=
      if !s1.events.isEmpty then
        (publish_events cfg s1.events, { s1 with events := [] })
      else ([], s1)
    ({ step3.2 with transaction_started := false }, step1.1 ++ fx2 ++ step3.1)

/-- `DjangoUnitOfWork.rollback`: roll the transaction back, discard the
buffer, finalize. Already-finalized rollbacks are no-ops. -/
def UoWState.rollback (s : UoWState) : UoWState × List Effect :=
  if s.committed || s.rolled_back then (s, [])
  else
    ({ s with rolled_back := true, events := [], transaction_started := false },
     if s.transaction_started then [Effect.txRollback] else [])

/-- `UnitOfWork.__exit__`: on an exception, roll back and re-raise (it
returns `False`, so the exception propagates unchanged); on normal exit,
commit. -/
def UoWState.exitScope (cfg : UoWConfig) (s : UoWState) (exc : Option String) :
    UoWState × List Effect × Option String :=
  match exc with
  | some e =>
    let r := s.rollback
    (r.1, r.2, some e)
  | none =>
    let r := s.commit cfg
    (r.1, r.2, none)

/-- A full `with DjangoUnitOfWork(...)` scope over a fresh instance: enter
(begin the transaction), run a body that enqueues `es` in order and then
either raises `exc` or finishes normally, and exit. -/
def runScope (cfg : UoWConfig) (es : List DEvt) (exc : Option String) :
    UoWState × List Effect × Option String :=
  (UoWState.new.begin_transaction.enqueueAll es).exitScope cfg exc

/-! Claim theorems for the aggregate. -/

/-- The status-transition table exactly as listed in the specification (§4.2):
Open→InProgress/WaitingOnCustomer, InProgress→WaitingOnCustomer/Resolved,
WaitingOnCustomer→InProgress/Resolved, Resolved→Closed/InProgress,
Closed→Open. -/
def specAllowed : TicketStatus → TicketStatus → Bool
  | .ABERTO, .EM_PROGRESSO => true
  | .ABERTO, .AGUARDANDO_CLIENTE => true
  | .EM_PROGRESSO, .AGUARDANDO_CLIENTE => true
  | .EM_PROGRESSO, .RESOLVIDO => true
  | .AGUARDANDO_CLIENTE, .EM_PROGRESSO => true
  | .AGUARDANDO_CLIENTE, .RESOLVIDO => true
  | .RESOLVIDO, .FECHADO => true
  | .RESOLVIDO, .EM_PROGRESSO => true
  | .FECHADO, .ABERTO => true
  | _, _ => false

theorem mem_transicoes_iff (s t : TicketStatus) :
    t ∈ transicoes_validas s ↔ specAllowed s t = true := by
  revert s t; decide

/-- C5: ChangeStatus is governed exhaustively by the transition table: a
listed (from,to) pair succeeds and sets the target status (refreshing only
`atualizado_em`), and every unlisted pair — self-transitions included —
raises `BusinessRuleViolationError` with rule `transicao_status_invalida`
(the rule the specification calls invalid-transition), leaving the ticket
unchanged since the raise returns no new state. -/
theorem alterar_status_matches_table (t : TicketEntity) (novo : TicketStatus)
    (now : Int) :
    (specAllowed t.status novo = true →
      t.alterar_status novo now = .ok { t with status := novo, atualizado_em := now }) ∧
    (specAllowed t.status novo = false →
      t.alterar_status novo now = .error (.businessRule
        ("Transição de " ++ t.status.value ++ " para " ++ novo.value ++
          " não é permitida")
        (some "transicao_status_invalida"))) := by
  constructor
  · intro h
    have hm : novo ∈ transicoes_validas t.status := (mem_transicoes_iff _ _).mpr h
    simp [TicketEntity.alterar_status, hm]
  · intro h
    have hm : novo ∉ transicoes_validas t.status := by
      intro hmem
      have := (mem_transicoes_iff _ _).mp hmem
      rw [h] at this
      exact Bool.noConfusion this
    simp [TicketEntity.alterar_status, hm]

/-- A concrete ticket used to instantiate hypothesized theorems. -/
def sampleTicket (st : TicketStatus) (asg : Option String) : TicketEntity :=
  { id := "t-1", titulo := "Bug no login", descricao := "Nao consegue logar",
    categoria := "Geral", status := st, prioridade := .MEDIA,
    criador_id := "u1", atribuido_a_id := asg, criado_em := 0,
    atualizado_em := 0, sla_prazo := some 259200, tags := [] }

theorem alterar_status_matches_table_witness :
    specAllowed TicketStatus.RESOLVIDO TicketStatus.FECHADO = true ∧
    (sampleTicket .RESOLVIDO none).alterar_status .FECHADO 7 =
      .ok { sampleTicket .RESOLVIDO none with status := .FECHADO, atualizado_em := 7 } :=
  ⟨rfl, (alterar_status_matches_table (sampleTicket .RESOLVIDO none) .FECHADO 7).1 rfl⟩

/-- C6: a created ticket satisfies `sla_prazo = criado_em + SLA duration of
its priority` (Critical=4h, High=24h, Medium=72h, Low=168h), and
ChangePriority on a non-Closed ticket recomputes `sla_prazo` from
`criado_em` (not from the change time) with the new priority's duration. -/
theorem sla_deadline_spec (titulo descricao criador_id : String)
    (p : TicketPriority) (categoria : String) (tags : Option (List String))
    (id : String) (now : Int) (t u : TicketEntity) (p' : TicketPriority)
    (now' : Int) :
    (TicketEntity.criar titulo descricao criador_id p categoria tags id now = .ok t →
      t.criado_em = now ∧ t.prioridade = p ∧
      t.sla_prazo = some (t.criado_em + hoursDelta p.sla_horas)) ∧
    (u.status ≠ .FECHADO →
      u.alterar_prioridade p' now' =
        .ok { u with prioridade := p', atualizado_em := now',
                     sla_prazo := some (u.criado_em + hoursDelta p'.sla_horas) }) := by
  constructor
  · intro h
    unfold TicketEntity.criar at h
    split at h
    · exact Except.noConfusion h
    · split at h
      · exact Except.noConfusion h
      · split at h
        · exact Except.noConfusion h
        · rw [Except.ok.injEq] at h
          subst h
          simp [TicketEntity.calcular_sla]
  · intro h
    simp [TicketEntity.alterar_prioridade, h, TicketEntity.calcular_sla]

/-- The ticket `criar "Bug no login" ... .CRITICA ... 100` returns. -/
def sampleCriado : TicketEntity :=
  { id := "t-1", titulo := "Bug no login", descricao := "Nao consegue logar",
    categoria := "Geral", status := .ABERTO, prioridade := .CRITICA,
    criador_id := "u1", atribuido_a_id := none, criado_em := 100,
    atualizado_em := 100, sla_prazo := some 14500, tags := [] }

theorem sla_deadline_spec_witness :
    (TicketEntity.criar "Bug no login" "Nao consegue logar" "u1" .CRITICA "Geral"
        none "t-1" 100 = .ok sampleCriado) ∧
    (sampleCriado.criado_em = 100 ∧ sampleCriado.prioridade = .CRITICA ∧
      sampleCriado.sla_prazo =
        some (sampleCriado.criado_em + hoursDelta TicketPriority.CRITICA.sla_horas)) ∧
    (sampleTicket .ABERTO none).status ≠ .FECHADO ∧
    ((sampleTicket .ABERTO none).alterar_prioridade .ALTA 9 =
      .ok { sampleTicket .ABERTO none with
            prioridade := .ALTA
            atualizado_em := 9
            sla_prazo := some ((sampleTicket .ABERTO none).criado_em +
              hoursDelta TicketPriority.ALTA.sla_horas) }) := by
  have hcriar : TicketEntity.criar "Bug no login" "Nao consegue logar" "u1"
      .CRITICA "Geral" none "t-1" 100 = .ok sampleCriado := rfl
  have h := sla_deadline_spec "Bug no login" "Nao consegue logar" "u1" .CRITICA
    "Geral" none "t-1" 100 sampleCriado (sampleTicket .ABERTO none) .ALTA 9
  exact ⟨hcriar, h.1 hcriar, by decide, h.2 (by decide)⟩

/-- C10 as stated is refuted at an empty-string assignee: `some ""` is a
non-nil `assigneeId` and the status is not Closed, yet `fechar` raises
`atribuicao_obrigatoria_para_fechar`, because `if not self.atribuido_a_id:`
tests Python truthiness and the empty string is falsy. -/
theorem fechar_empty_assignee_fails :
    (sampleTicket .RESOLVIDO (some "")).atribuido_a_id = some "" ∧
    (sampleTicket .RESOLVIDO (some "")).status ≠ .FECHADO ∧
    (sampleTicket .RESOLVIDO (some "")).fechar 5 =
      .error (.businessRule "Ticket deve ser atribuído antes de ser fechado"
        (some "atribuicao_obrigatoria_para_fechar")) :=
  ⟨rfl, by decide, rfl⟩

/-- C10 amended: Close() ignores the transition table: any ticket whose
assignee is non-nil and non-empty (Python-truthy) and whose status is not
Closed is closed directly (even from Open, InProgress or WaitingOnCustomer),
while ChangeStatus admits Closed only from Resolved. An empty-string
assignee is treated by Close() like no assignment (see the counterexample). -/
theorem fechar_bypasses_table (t u : TicketEntity) (x : String) (now now' : Int) :
    (t.atribuido_a_id = some x → x ≠ "" → t.status ≠ .FECHADO →
      t.fechar now = .ok { t with status := .FECHADO, atualizado_em := now }) ∧
    (u.status ≠ .RESOLVIDO →
      u.alterar_status .FECHADO now' = .error (.businessRule
        ("Transição de " ++ u.status.value ++ " para " ++
          TicketStatus.FECHADO.value ++ " não é permitida")
        (some "transicao_status_invalida"))) := by
  constructor
  · intro ha hx hs
    have hf : optStrFalsy t.atribuido_a_id = false := by
      rw [ha]
      simp [optStrFalsy, hx]
    simp [TicketEntity.fechar, hf, hs]
  · intro h
    have hm : TicketStatus.FECHADO ∉ transicoes_validas u.status := by
      intro hmem
      apply h
      revert hmem
      cases u.status <;> decide
    simp [TicketEntity.alterar_status, hm]

theorem fechar_bypasses_table_witness :
    (sampleTicket .ABERTO (some "tec-1")).atribuido_a_id = some "tec-1" ∧
    ("tec-1" : String) ≠ "" ∧
    (sampleTicket .ABERTO (some "tec-1")).status ≠ .FECHADO ∧
    ((sampleTicket .ABERTO (some "tec-1")).fechar 5 =
      .ok { sampleTicket .ABERTO (some "tec-1") with
            status := .FECHADO
            atualizado_em := 5 }) ∧
    (sampleTicket .ABERTO (some "tec-1")).status ≠ .RESOLVIDO ∧
    ((sampleTicket .ABERTO (some "tec-1")).alterar_status .FECHADO 6 =
      .error (.businessRule
        ("Transição de " ++ (sampleTicket .ABERTO (some "tec-1")).status.value ++
          " para " ++ TicketStatus.FECHADO.value ++ " não é permitida")
        (some "transicao_status_invalida"))) := by
  have h := fechar_bypasses_table (sampleTicket .ABERTO (some "tec-1"))
    (sampleTicket .ABERTO (some "tec-1")) "tec-1" 5 6
  exact ⟨rfl, by decide, by decide, h.1 rfl (by decide) (by decide), by decide,
    h.2 (by decide)⟩

/-- C1 is violated by the code: from a freshly created (never assigned)
ticket, the sequence ChangeStatus(InProgress), ChangeStatus(Resolved),
ChangeStatus(Closed) succeeds — `alterar_status` performs no assignment check
on the Resolved→Closed edge — reaching `status = FECHADO` with
`atribuido_a_id = none`, contradicting the invariant (and the entity's own
docstring "Ticket só pode ser fechado se estiver atribuído"). -/
theorem closed_without_assignee_reachable :
    ((((TicketEntity.criar "Bug no login" "Usuario nao consegue logar" "u1"
          .MEDIA "Geral" none "t-1" 0).bind
        (fun t => t.alterar_status .EM_PROGRESSO 1)).bind
        (fun t => t.alterar_status .RESOLVIDO 2)).bind
        (fun t => t.alterar_status .FECHADO 3)).map
        (fun t => (t.status, t.atribuido_a_id))
      = .ok (TicketStatus.FECHADO, none) := rfl

theorem validar_titulo_err (t : String)
    (h : slen (pstrip t) < TITULO_MIN_LENGTH ∨ TITULO_MAX_LENGTH < slen (pstrip t)) :
    ∃ msg, validar_titulo t = .error (.validation msg (some "titulo")) := by
  unfold validar_titulo
  by_cases ht : t = ""
  · exact ⟨"Título é obrigatório", by simp [ht]⟩
  · rcases h with h | h
    · exact ⟨"Título deve ter pelo menos " ++ toString TITULO_MIN_LENGTH ++
        " caracteres", by simp [ht, h]⟩
    · have hnot : ¬ slen (pstrip t) < TITULO_MIN_LENGTH := Nat.not_lt.mpr (Nat.le_of_lt
        (Nat.lt_of_le_of_lt (by decide) h))
      exact ⟨"Título deve ter no máximo " ++ toString TITULO_MAX_LENGTH ++
        " caracteres", by simp [ht, hnot, h]⟩

theorem validar_titulo_ok (t : String)
    (h1 : TITULO_MIN_LENGTH ≤ slen (pstrip t))
    (h2 : slen (pstrip t) ≤ TITULO_MAX_LENGTH) :
    validar_titulo t = .ok () := by
  have ht : ¬ t = "" := by
    intro h
    subst h
    revert h1
    decide
  unfold validar_titulo
  simp [ht, Nat.not_lt.mpr h1, Nat.not_lt.mpr h2]

theorem validar_descricao_err (d : String)
    (h : slen (pstrip d) < DESCRICAO_MIN_LENGTH ∨
      DESCRICAO_MAX_LENGTH < slen (pstrip d)) :
    ∃ msg, validar_descricao d = .error (.validation msg (some "descricao")) := by
  unfold validar_descricao
  by_cases hd : d = ""
  · exact ⟨"Descrição é obrigatória", by simp [hd]⟩
  · rcases h with h | h
    · exact ⟨"Descrição deve ter pelo menos " ++ toString DESCRICAO_MIN_LENGTH ++
        " caracteres", by simp [hd, h]⟩
    · have hnot : ¬ slen (pstrip d) < DESCRICAO_MIN_LENGTH := Nat.not_lt.mpr (Nat.le_of_lt
        (Nat.lt_of_le_of_lt (by decide) h))
      exact ⟨"Descrição deve ter no máximo " ++ toString DESCRICAO_MAX_LENGTH ++
        " caracteres", by simp [hd, hnot, h]⟩

theorem validar_descricao_ok (d : String)
    (h1 : DESCRICAO_MIN_LENGTH ≤ slen (pstrip d))
    (h2 : slen (pstrip d) ≤ DESCRICAO_MAX_LENGTH) :
    validar_descricao d = .ok () := by
  have hd : ¬ d = "" := by
    intro h
    subst h
    revert h1
    decide
  unfold validar_descricao
  simp [hd, Nat.not_lt.mpr h1, Nat.not_lt.mpr h2]

/-- C7: the factory validates before constructing: a trimmed title outside
3..200 fails naming field `titulo`; with a valid title, a trimmed description
outside 10..5000 fails naming field `descricao`; with both valid, an empty
creator id fails naming field `criador_id`; in each failure case no ticket is
returned. With all inputs valid it returns a new ticket with trimmed title
and description, `status = ABERTO`, `sla_prazo` computed from the given
priority and `criado_em = atualizado_em = now`. -/
theorem criar_validates (titulo descricao criador_id : String)
    (p : TicketPriority) (categoria : String) (tags : Option (List String))
    (id : String) (now : Int) :
    ((slen (pstrip titulo) < TITULO_MIN_LENGTH ∨
        TITULO_MAX_LENGTH < slen (pstrip titulo)) →
      ∃ msg, TicketEntity.criar titulo descricao criador_id p categoria tags id now =
        .error (.validation msg (some "titulo"))) ∧
    (TITULO_MIN_LENGTH ≤ slen (pstrip titulo) →
      slen (pstrip titulo) ≤ TITULO_MAX_LENGTH →
      (slen (pstrip descricao) < DESCRICAO_MIN_LENGTH ∨
        DESCRICAO_MAX_LENGTH < slen (pstrip descricao)) →
      ∃ msg, TicketEntity.criar titulo descricao criador_id p categoria tags id now =
        .error (.validation msg (some "descricao"))) ∧
    (TITULO_MIN_LENGTH ≤ slen (pstrip titulo) →
      slen (pstrip titulo) ≤ TITULO_MAX_LENGTH →
      DESCRICAO_MIN_LENGTH ≤ slen (pstrip descricao) →
      slen (pstrip descricao) ≤ DESCRICAO_MAX_LENGTH →
      criador_id = "" →
      ∃ msg, TicketEntity.criar titulo descricao criador_id p categoria tags id now =
        .error (.validation msg (some "criador_id"))) ∧
    (TITULO_MIN_LENGTH ≤ slen (pstrip titulo) →
      slen (pstrip titulo) ≤ TITULO_MAX_LENGTH →
      DESCRICAO_MIN_LENGTH ≤ slen (pstrip descricao) →
      slen (pstrip descricao) ≤ DESCRICAO_MAX_LENGTH →
      criador_id ≠ "" →
      TicketEntity.criar titulo descricao criador_id p categoria tags id now =
        .ok { id := id
              titulo := pstrip titulo
              descricao := pstrip descricao
              categoria := if categoria = "" then "Geral" else pstrip categoria
              status := .ABERTO
              prioridade := p
              criador_id := criador_id
              atribuido_a_id := none
              criado_em := now
              atualizado_em := now
              sla_prazo := some (now + hoursDelta p.sla_horas)
              tags := tags.getD [] }) := by
  refine ⟨?_, ?_, ?_, ?_⟩
  · intro h
    obtain ⟨msg, hmsg⟩ := validar_titulo_err titulo h
    refine ⟨msg, ?_⟩
    simp [TicketEntity.criar, hmsg]
  · intro h1 h2 h
    obtain ⟨msg, hmsg⟩ := validar_descricao_err descricao h
    refine ⟨msg, ?_⟩
    simp [TicketEntity.criar, validar_titulo_ok titulo h1 h2, hmsg]
  · intro h1 h2 h3 h4 hc
    refine ⟨"Criador é obrigatório", ?_⟩
    simp [TicketEntity.criar, validar_titulo_ok titulo h1 h2,
      validar_descricao_ok descricao h3 h4, validar_criador, hc]
  · intro h1 h2 h3 h4 hc
    simp [TicketEntity.criar, validar_titulo_ok titulo h1 h2,
      validar_descricao_ok descricao h3 h4, validar_criador, hc,
      TicketEntity.calcular_sla]

theorem criar_validates_witness :
    (slen (pstrip "ab") < TITULO_MIN_LENGTH ∨
      TITULO_MAX_LENGTH < slen (pstrip "ab")) ∧
    (∃ msg, TicketEntity.criar "ab" "Descricao grande o suficiente" "u1" .MEDIA
        "Geral" none "t-9" 5 = .error (.validation msg (some "titulo"))) ∧
    (TicketEntity.criar "Bug no login" "Nao consegue logar" "u2" .ALTA "Suporte"
        none "t-8" 7 =
      .ok { id := "t-8"
            titulo := pstrip "Bug no login"
            descricao := pstrip "Nao consegue logar"
            categoria := if ("Suporte" : String) = "" then "Geral" else pstrip "Suporte"
            status := .ABERTO
            prioridade := .ALTA
            criador_id := "u2"
            atribuido_a_id := none
            criado_em := 7
            atualizado_em := 7
            sla_prazo := some (7 + hoursDelta TicketPriority.ALTA.sla_horas)
            tags := (none : Option (List String)).getD [] }) :=
  ⟨by decide,
   (criar_validates "ab" "Descricao grande o suficiente" "u1" .MEDIA "Geral"
      none "t-9" 5).1 (by decide),
   (criar_validates "Bug no login" "Nao consegue logar" "u2" .ALTA "Suporte"
      none "t-8" 7).2.2.2 (by decide) (by decide) (by decide) (by decide)
      (by decide)⟩

/-- C9 is violated by the code: `TicketCriadoEvent.__post_init__` is `pass`,
so constructing a concrete ticket event with an empty `aggregate_id`
succeeds. -/
theorem criado_event_empty_aggregate_ok :
    TicketCriadoEvent.make "e1" "" 0 1 "u1" "Bug" "Média" "Geral" =
      .ok { event_id := "e1", aggregate_id := "", occurred_at := 0, version := 1,
            criador_id := "u1", titulo := "Bug", prioridade := "Média",
            categoria := "Geral" } := rfl

/-- C9 amended: the abstract `DomainEvent.__post_init__` does reject an empty
`aggregate_id`, but every concrete ticket event (Created, Assigned, Closed,
Reopened, PriorityChanged) overrides `__post_init__` with a no-op, so each of
them can be constructed with an empty `aggregate_id`. -/
theorem events_skip_empty_aggregate_check :
    DomainEvent.post_init "" = .error "aggregate_id é obrigatório" ∧
    (∀ eid occ v a b c d, TicketCriadoEvent.make eid "" occ v a b c d =
      .ok { event_id := eid, aggregate_id := "", occurred_at := occ, version := v,
            criador_id := a, titulo := b, prioridade := c, categoria := d }) ∧
    (∀ eid occ v a b, TicketAtribuidoEvent.make eid "" occ v a b =
      .ok { event_id := eid, aggregate_id := "", occurred_at := occ, version := v,
            tecnico_id := a, atribuido_por_id := b }) ∧
    (∀ eid occ v a b c, TicketFechadoEvent.make eid "" occ v a b c =
      .ok { event_id := eid, aggregate_id := "", occurred_at := occ, version := v,
            fechado_por_id := a, tempo_resolucao_horas := b, dentro_sla := c }) ∧
    (∀ eid occ v a b, TicketReabertoEvent.make eid "" occ v a b =
      .ok { event_id := eid, aggregate_id := "", occurred_at := occ, version := v,
            reaberto_por_id := a, motivo := b }) ∧
    (∀ eid occ v a b c, TicketPrioridadeAlteradaEvent.make eid "" occ v a b c =
      .ok { event_id := eid, aggregate_id := "", occurred_at := occ, version := v,
            prioridade_anterior := a, prioridade_nova := b, alterado_por_id := c }) :=
  ⟨rfl, fun _ _ _ _ _ _ _ => rfl, fun _ _ _ _ _ => rfl, fun _ _ _ _ _ _ => rfl,
   fun _ _ _ _ _ => rfl, fun _ _ _ _ _ _ => rfl⟩

/-! Claim theorems for the unit of work. -/

theorem enqueueAll_spec (s : UoWState) (es : List DEvt) :
    s.enqueueAll es = { s with events := s.events ++ es } := by
  induction es generalizing s with
  | nil => simp [UoWState.enqueueAll]
  | cons e es ih =>
    have h1 : s.enqueueAll (e :: es) = (s.publish_event e).enqueueAll es := rfl
    rw [h1, ih]
    simp [UoWState.publish_event]

/-- The state a fresh scope is in when the body finishes enqueuing `es`. -/
theorem scope_state (es : List DEvt) :
    UoWState.new.begin_transaction.enqueueAll es =
      { events := es, transaction_started := true, committed := false,
        rolled_back := false, seq_counters := fun _ => 0 } := by
  rw [enqueueAll_spec]
  simp [UoWState.new, UoWState.begin_transaction]

/-- C2: an exception raised inside the scope after enqueuing events makes
`__exit__` call rollback: the transaction is rolled back, no event reaches
the publisher, no event reaches the event store, the buffer is emptied, and
the original exception propagates unchanged. -/
theorem uow_exception_rolls_back (cfg : UoWConfig) (es : List DEvt) (ex : String)
    (_h : es ≠ []) :
    runScope cfg es (some ex) =
      ({ events := [], transaction_started := false, committed := false,
         rolled_back := true, seq_counters := fun _ => 0 },
       [Effect.txRollback], some ex) ∧
    (∀ e n, Effect.storeAppend e n ∉ (runScope cfg es (some ex)).2.1) ∧
    (∀ e b, Effect.publishCall e b ∉ (runScope cfg es (some ex)).2.1) := by
  have hrun : runScope cfg es (some ex) =
      ({ events := [], transaction_started := false, committed := false,
         rolled_back := true, seq_counters := fun _ => 0 },
       [Effect.txRollback], some ex) := by
    rw [runScope, scope_state]
    simp [UoWState.exitScope, UoWState.rollback]
  refine ⟨hrun, ?_, ?_⟩
  · intro e n
    rw [hrun]
    simp
  · intro e b
    rw [hrun]
    simp

theorem uow_exception_rolls_back_witness :
    ([⟨1, "t1"⟩] : List DEvt) ≠ [] ∧
    runScope ⟨true, true, fun _ => false⟩ [⟨1, "t1"⟩] (some "boom") =
      ({ events := [], transaction_started := false, committed := false,
         rolled_back := true, seq_counters := fun _ => 0 },
       [Effect.txRollback], some "boom") :=
  ⟨by decide,
   (uow_exception_rolls_back ⟨true, true, fun _ => false⟩ [⟨1, "t1"⟩] "boom"
      (by decide)).1⟩

/-- The per-aggregate sequence stamps `_persist_events` hands the event
store, relative to the current counters `c`. -/
def stampsFrom (c : String → Nat) : List DEvt → List (DEvt × Nat)
  | [] => []
  | e :: es =>
    (e, c e.aggregate_id + 1) ::
      stampsFrom (fun a => if a = e.aggregate_id then c e.aggregate_id + 1 else c a) es

theorem persist_events_fst (es : List DEvt) (c : String → Nat) :
    (persist_events es c).1 =
      (stampsFrom c es).map (fun p => Effect.storeAppend p.1 p.2) := by
  induction es generalizing c with
  | nil => simp [persist_events, stampsFrom]
  | cons e es ih => simp [persist_events, stampsFrom, get_next_sequence, ih]

/-- Number of events in `es` belonging to aggregate `a`. -/
def countAgg (a : String) (es : List DEvt) : Nat :=
  (es.filter (fun e => e.aggregate_id == a)).length

/-- For each aggregate, the stamps are consecutive from `c a + 1`. -/
theorem stampsFrom_filter (a : String) (es : List DEvt) :
    ∀ c, ((stampsFrom c es).filter (fun p => p.1.aggregate_id == a)).map Prod.snd
      = List.range' (c a + 1) (countAgg a es) := by
  induction es with
  | nil => intro c; simp [stampsFrom, countAgg]
  | cons e es ih =>
    intro c
    by_cases hag : e.aggregate_id = a
    · subst hag
      have hc : countAgg e.aggregate_id (e :: es) =
          countAgg e.aggregate_id es + 1 := by
        simp [countAgg]
      rw [hc, List.range'_succ]
      have hup := ih (fun x => if x = e.aggregate_id then c e.aggregate_id + 1 else c x)
      simp only [if_pos rfl] at hup
      simp [stampsFrom, hup]
    · have hbeq : (e.aggregate_id == a) = false := beq_eq_false_iff_ne.mpr hag
      have hc : countAgg a (e :: es) = countAgg a es := by
        simp [countAgg, List.filter_cons, hbeq]
      rw [hc]
      have hup := ih (fun x => if x = e.aggregate_id then c e.aggregate_id + 1 else c x)
      rw [if_neg (fun hax => hag hax.symm)] at hup
      simp [stampsFrom, List.filter_cons, hbeq, hup]

theorem publish_events_spec (cfg : UoWConfig) (hp : cfg.hasPublisher = true)
    (es : List DEvt) :
    publish_events cfg es = es.map (fun e => Effect.publishCall e (!cfg.pubFails e)) := by
  induction es with
  | nil => simp [publish_events]
  | cons e es ih => simp [publish_events, hp, ih]

/-- `commit` on a fresh scope with a non-empty buffer, for any wiring. -/
theorem commit_trace (cfg : UoWConfig) (es : List DEvt) (hne : es ≠ []) :
    (UoWState.new.begin_transaction.enqueueAll es).commit cfg =
      ({ events := [], transaction_started := false, committed := true,
         rolled_back := false,
         seq_counters :=
           if cfg.hasStore then (persist_events es (fun _ => 0)).2
           else fun _ => 0 },
       (if cfg.hasStore then (persist_events es (fun _ => 0)).1 else [])
         ++ [Effect.txCommit] ++ publish_events cfg es) := by
  rw [scope_state]
  have hemp : es.isEmpty = false := by
    cases es with
    | nil => exact absurd rfl hne
    | cons e es => rfl
  by_cases hs : cfg.hasStore
  · simp [UoWState.commit, hs, hemp]
  · simp only [Bool.not_eq_true] at hs
    simp [UoWState.commit, hs, hemp]

/-- C3: on normal scope exit with a non-empty buffer (publisher and store
configured), commit runs: no exception escapes, the buffer is cleared, the
trace is exactly the event-store appends (one per event, in order), then the
transaction commit, then one publish call per event in enqueue order; and
the sequence numbers stamped for each aggregate are consecutive from 1. -/
theorem uow_commit_protocol (cfg : UoWConfig) (es : List DEvt)
    (hp : cfg.hasPublisher = true) (hs : cfg.hasStore = true) (hne : es ≠ []) :
    (runScope cfg es none).2.2 = none ∧
    (runScope cfg es none).1.events = [] ∧
    (runScope cfg es none).1.committed = true ∧
    (runScope cfg es none).2.1 =
      (stampsFrom (fun _ => 0) es).map (fun p => Effect.storeAppend p.1 p.2)
        ++ [Effect.txCommit]
        ++ es.map (fun e => Effect.publishCall e (!cfg.pubFails e)) ∧
    (∀ a : String,
      ((stampsFrom (fun _ => 0) es).filter
          (fun p => p.1.aggregate_id == a)).map Prod.snd
        = List.range' 1 (countAgg a es)) := by
  have hrs : runScope cfg es none =
      (((UoWState.new.begin_transaction.enqueueAll es).commit cfg).1,
       ((UoWState.new.begin_transaction.enqueueAll es).commit cfg).2, none) := rfl
  rw [hrs, commit_trace cfg es hne]
  rw [if_pos hs, if_pos hs, persist_events_fst, publish_events_spec cfg hp]
  refine ⟨rfl, rfl, rfl, rfl, ?_⟩
  intro a
  simpa using stampsFrom_filter a es (fun _ => 0)

theorem uow_commit_protocol_witness :
    (UoWConfig.mk true true (fun _ => false)).hasPublisher = true ∧
    (UoWConfig.mk true true (fun _ => false)).hasStore = true ∧
    ([⟨1, "t1"⟩, ⟨2, "t1"⟩, ⟨3, "t2"⟩] : List DEvt) ≠ [] ∧
    (runScope ⟨true, true, fun _ => false⟩ [⟨1, "t1"⟩, ⟨2, "t1"⟩, ⟨3, "t2"⟩] none).2.1 =
      (stampsFrom (fun _ => 0) [⟨1, "t1"⟩, ⟨2, "t1"⟩, ⟨3, "t2"⟩]).map
          (fun p => Effect.storeAppend p.1 p.2)
        ++ [Effect.txCommit]
        ++ ([⟨1, "t1"⟩, ⟨2, "t1"⟩, ⟨3, "t2"⟩] : List DEvt).map
            (fun e => Effect.publishCall e (!(fun _ => false) e)) :=
  ⟨rfl, rfl, by decide,
   (uow_commit_protocol ⟨true, true, fun _ => false⟩
      [⟨1, "t1"⟩, ⟨2, "t1"⟩, ⟨3, "t2"⟩] rfl rfl (by decide)).2.2.2.1⟩

theorem persist_events_shape (es : List DEvt) (c : String → Nat) :
    ∀ x ∈ (persist_events es c).1, ∃ e n, x = Effect.storeAppend e n := by
  rw [persist_events_fst]
  intro x hx
  obtain ⟨p, _, hpx⟩ := List.mem_map.mp hx
  exact ⟨p.1, p.2, hpx.symm⟩

/-- C4: when publishing an individual buffered event raises, the exception
is caught inside the publish loop: nothing propagates to the caller, the
already-committed transaction is never rolled back, the commit completes
(`committed = true`), and every buffered event — including those after the
failing one — still gets exactly its publish call. -/
theorem uow_publish_failure_swallowed (cfg : UoWConfig) (es : List DEvt)
    (e₀ : DEvt) (hp : cfg.hasPublisher = true) (hmem : e₀ ∈ es)
    (hfail : cfg.pubFails e₀ = true) :
    (runScope cfg es none).2.2 = none ∧
    (runScope cfg es none).1.committed = true ∧
    Effect.txRollback ∉ (runScope cfg es none).2.1 ∧
    Effect.publishCall e₀ false ∈ (runScope cfg es none).2.1 ∧
    (∀ e ∈ es, Effect.publishCall e (!cfg.pubFails e) ∈ (runScope cfg es none).2.1) := by
  have hne : es ≠ [] := by
    intro h
    rw [h] at hmem
    simp at hmem
  have hrs : runScope cfg es none =
      (((UoWState.new.begin_transaction.enqueueAll es).commit cfg).1,
       ((UoWState.new.begin_transaction.enqueueAll es).commit cfg).2, none) := rfl
  rw [hrs, commit_trace cfg es hne]
  refine ⟨rfl, rfl, ?_, ?_, ?_⟩
  · intro hin
    simp only [List.append_assoc, List.mem_append] at hin
    rcases hin with hin | hin | hin
    · split at hin
      · obtain ⟨e, n, hx⟩ := persist_events_shape es (fun _ => 0) _ hin
        exact Effect.noConfusion hx
      · simp at hin
    · obtain h := List.mem_singleton.mp hin
      exact Effect.noConfusion h
    · rw [publish_events_spec cfg hp] at hin
      obtain ⟨e, _, hx⟩ := List.mem_map.mp hin
      exact Effect.noConfusion hx
  · rw [List.append_assoc]
    refine List.mem_append.mpr (Or.inr (List.mem_append.mpr (Or.inr ?_)))
    rw [publish_events_spec cfg hp]
    refine List.mem_map.mpr ⟨e₀, hmem, ?_⟩
    rw [hfail]
    rfl
  · intro e he
    rw [List.append_assoc]
    refine List.mem_append.mpr (Or.inr (List.mem_append.mpr (Or.inr ?_)))
    rw [publish_events_spec cfg hp]
    exact List.mem_map.mpr ⟨e, he, rfl⟩

theorem uow_publish_failure_swallowed_witness :
    (UoWConfig.mk true false (fun e => e.tag == 1)).hasPublisher = true ∧
    (⟨1, "t1"⟩ : DEvt) ∈ ([⟨1, "t1"⟩, ⟨2, "t2"⟩] : List DEvt) ∧
    (UoWConfig.mk true false (fun e => e.tag == 1)).pubFails ⟨1, "t1"⟩ = true ∧
    (runScope ⟨true, false, fun e => e.tag == 1⟩ [⟨1, "t1"⟩, ⟨2, "t2"⟩] none).2.2
      = none ∧
    (runScope ⟨true, false, fun e => e.tag == 1⟩ [⟨1, "t1"⟩, ⟨2, "t2"⟩] none).1.committed
      = true ∧
    Effect.txRollback ∉
      (runScope ⟨true, false, fun e => e.tag == 1⟩ [⟨1, "t1"⟩, ⟨2, "t2"⟩] none).2.1 := by
  have h := uow_publish_failure_swallowed ⟨true, false, fun e => e.tag == 1⟩
    [⟨1, "t1"⟩, ⟨2, "t2"⟩] ⟨1, "t1"⟩ rfl (by decide) (by decide)
  exact ⟨rfl, by decide, by decide, h.1, h.2.1, h.2.2.1⟩

/-! Tag normalization (claim about `tags`). -/

theorem toNat_ofNat_valid {n : Nat} (h : n.isValidChar) : (Char.ofNat n).toNat = n := by
  simp [Char.ofNat, dif_pos h, Char.ofNatAux, Char.toNat]
  rfl

theorem toNat_toLower_of_upper (c : Char) (h : 65 ≤ c.toNat ∧ c.toNat ≤ 90) :
    (Char.toLower c).toNat = c.toNat + 32 := by
  unfold Char.toLower
  rw [if_pos ⟨h.1, h.2⟩]
  exact toNat_ofNat_valid (Or.inl (by omega))

theorem toLower_of_not_upper (c : Char) (h : ¬(65 ≤ c.toNat ∧ c.toNat ≤ 90)) :
    Char.toLower c = c := by
  unfold Char.toLower
  rw [if_neg ?_]
  intro hc
  exact h ⟨hc.1, hc.2⟩

theorem pyIsSpace_toLower (c : Char) : pyIsSpace (Char.toLower c) = pyIsSpace c := by
  by_cases h : 65 ≤ c.toNat ∧ c.toNat ≤ 90
  · have hn := toNat_toLower_of_upper c h
    have h1 : pyIsSpace (Char.toLower c) = false := by
      simp only [pyIsSpace, hn]
      simp only [Bool.or_eq_false_iff, decide_eq_false_iff_not]
      omega
    have h2 : pyIsSpace c = false := by
      simp only [pyIsSpace]
      simp only [Bool.or_eq_false_iff, decide_eq_false_iff_not]
      omega
    rw [h1, h2]
  · rw [toLower_of_not_upper c h]

theorem toLower_toLower (c : Char) : Char.toLower (Char.toLower c) = Char.toLower c := by
  by_cases h : 65 ≤ c.toNat ∧ c.toNat ≤ 90
  · have hn := toNat_toLower_of_upper c h
    refine toLower_of_not_upper _ ?_
    rw [hn]
    omega
  · rw [toLower_of_not_upper c h, toLower_of_not_upper c h]

theorem dropWhile_map_lower (l : List Char) :
    (l.map Char.toLower).dropWhile pyIsSpace =
      (l.dropWhile pyIsSpace).map Char.toLower := by
  induction l with
  | nil => simp
  | cons c l ih =>
    by_cases h : pyIsSpace c
    · have h' : pyIsSpace (Char.toLower c) = true := by rw [pyIsSpace_toLower]; exact h
      simp [List.dropWhile_cons, h', h, ih]
    · have h' : pyIsSpace (Char.toLower c) = false := by
        rw [pyIsSpace_toLower]
        exact Bool.eq_false_iff.mpr h
      simp [List.dropWhile_cons, h', Bool.eq_false_iff.mpr h]

theorem rdropWhile_map_lower (l : List Char) :
    (l.map Char.toLower).rdropWhile pyIsSpace =
      (l.rdropWhile pyIsSpace).map Char.toLower := by
  simp only [List.rdropWhile]
  rw [← List.map_reverse, dropWhile_map_lower, List.map_reverse]

theorem pyStrip_map_lower (l : List Char) :
    pyStripChars (l.map Char.toLower) = (pyStripChars l).map Char.toLower := by
  unfold pyStripChars
  rw [dropWhile_map_lower, rdropWhile_map_lower]

theorem dropWhile_head_false {p : Char → Bool} {c : Char} {t : List Char}
    (h : (c :: t).dropWhile p = c :: t) : p c = false := by
  by_cases hc : p c
  · rw [List.dropWhile_cons, if_pos hc] at h
    have hlen := congrArg List.length h
    have hle := (List.dropWhile_sublist (l := t) p).length_le
    simp at hlen
    omega
  · exact Bool.eq_false_iff.mpr hc

theorem dropWhile_take_self {p : Char → Bool} {u : List Char} (k : Nat)
    (h : u.dropWhile p = u) : (u.take k).dropWhile p = u.take k := by
  cases u with
  | nil => simp
  | cons c t =>
    cases k with
    | zero => simp
    | succ k =>
      have hc := dropWhile_head_false h
      simp [List.dropWhile_cons, hc]

theorem pyStrip_idem (l : List Char) :
    pyStripChars (pyStripChars l) = pyStripChars l := by
  unfold pyStripChars
  have hu : (l.dropWhile pyIsSpace).dropWhile pyIsSpace = l.dropWhile pyIsSpace :=
    List.dropWhile_idempotent pyIsSpace l
  obtain ⟨k, hk⟩ : ∃ k, (l.dropWhile pyIsSpace).rdropWhile pyIsSpace =
      (l.dropWhile pyIsSpace).take k :=
    ⟨((l.dropWhile pyIsSpace).rdropWhile pyIsSpace).length,
      List.prefix_iff_eq_take.mp ( List.rdropWhile_prefix pyIsSpace _)⟩
  rw [hk, dropWhile_take_self k hu, ← hk]
  exact List.rdropWhile_idempotent pyIsSpace _

theorem normTag_idem (s : String) : normTag (normTag s) = normTag s := by
  show (⟨(pyStripChars ((pyStripChars s.data).map Char.toLower)).map Char.toLower⟩ :
      String) = ⟨(pyStripChars s.data).map Char.toLower⟩
  rw [pyStrip_map_lower, pyStrip_idem, List.map_map]
  have : Char.toLower ∘ Char.toLower = Char.toLower := funext toLower_toLower
  rw [this]

/-- The tags invariant the specification states: every stored tag is its own
normalization (trimmed, lower-cased) and there are no duplicates. -/
def tagsNormalized (l : List String) : Prop :=
  l.Nodup ∧ ∀ x ∈ l, normTag x = x

/-- C8 is violated at creation: the factory stores a supplied tags list as
given — `criar` performs no normalization and no deduplication on it. -/
theorem criar_stores_tags_as_given :
    ∃ u, TicketEntity.criar "Bug com tags" "Este ticket tera tags" "u1" .MEDIA
        "Geral" (some ["  Urgente  ", "urgente", "urgente"]) "t-7" 0 = .ok u ∧
      u.tags = ["  Urgente  ", "urgente", "urgente"] ∧
      ¬ tagsNormalized u.tags := by
  refine ⟨_, rfl, rfl, ?_⟩
  intro hnorm
  exact absurd hnorm.1 (by decide)

/-- C8 amended: tickets created without a tags list start with no tags, and
AddTag/RemoveTag preserve the normalized-and-duplicate-free invariant (AddTag
appends only the normalized tag and only when absent; RemoveTag only removes);
but a tags list supplied at creation is stored as given, with no
normalization or deduplication (see the counterexample). -/
theorem tags_invariant_amended (t : TicketEntity) (tag : String) (now : Int)
    (titulo descricao criador_id : String) (p : TicketPriority)
    (categoria id : String) (now' : Int) (u : TicketEntity) :
    (TicketEntity.criar titulo descricao criador_id p categoria none id now' = .ok u →
      u.tags = []) ∧
    (tagsNormalized t.tags → tagsNormalized (t.adicionar_tag tag now).tags) ∧
    (tagsNormalized t.tags → tagsNormalized (t.remover_tag tag now).tags) := by
  refine ⟨?_, ?_, ?_⟩
  · intro h
    unfold TicketEntity.criar at h
    split at h
    · exact Except.noConfusion h
    · split at h
      · exact Except.noConfusion h
      · split at h
        · exact Except.noConfusion h
        · rw [Except.ok.injEq] at h
          subst h
          rfl
  · intro hinv
    obtain ⟨hnd, hall⟩ := hinv
    unfold TicketEntity.adicionar_tag
    split
    next hcond =>
      constructor
      · rw [List.nodup_append]
        exact ⟨hnd, List.nodup_singleton _,
          fun x hx hmem => hcond.2 (by rwa [List.mem_singleton.mp hmem] at hx)⟩
      · intro x hx
        rcases List.mem_append.mp hx with hx | hx
        · exact hall x hx
        · rw [List.mem_singleton.mp hx]
          exact normTag_idem tag
    next => exact ⟨hnd, hall⟩
  · intro hinv
    obtain ⟨hnd, hall⟩ := hinv
    unfold TicketEntity.remover_tag
    split
    next => exact ⟨hnd.erase _, fun x hx => hall x (List.mem_of_mem_erase hx)⟩
    next => exact ⟨hnd, hall⟩

/-- A concrete ticket with an already-normalized tags list. -/
def sampleTagged : TicketEntity :=
  { sampleTicket .ABERTO none with tags := ["urgente", "vip"] }

theorem tags_invariant_amended_witness :
    (TicketEntity.criar "Bug no login" "Nao consegue logar" "u1" .CRITICA "Geral"
        none "t-1" 100 = .ok sampleCriado) ∧
    sampleCriado.tags = [] ∧
    tagsNormalized sampleTagged.tags ∧
    tagsNormalized ((sampleTagged.adicionar_tag "  Urgente  " 3).tags) ∧
    tagsNormalized ((sampleTagged.remover_tag "  Urgente  " 4).tags) := by
  have h := tags_invariant_amended sampleTagged "  Urgente  " 3 "Bug no login"
    "Nao consegue logar" "u1" .CRITICA "Geral" "t-1" 100 sampleCriado
  have hcriar : TicketEntity.criar "Bug no login" "Nao consegue logar" "u1"
      .CRITICA "Geral" none "t-1" 100 = .ok sampleCriado := rfl
  have hbase : tagsNormalized sampleTagged.tags := by
    constructor
    · decide
    · intro x hx
      fin_cases hx <;> rfl
  exact ⟨hcriar, h.1 hcriar, hbase, h.2.1 hbase,
    (tags_invariant_amended sampleTagged "  Urgente  " 4 "Bug no login"
      "Nao consegue logar" "u1" .CRITICA "Geral" "t-1" 100 sampleCriado).2.2 hbase⟩

end Tickets
